import Mathlib

/-!
Shallow embedding of the session-lifecycle core of the netsuitedata portal:
the request middleware (src/middleware.ts), the session API route handlers
(src/app/api/session-check/route.ts and src/app/api/extend-session/route.ts)
and the client-side session monitor (src/components/SessionManager.tsx).

Timestamps are milliseconds since the epoch, modelled as integers; every
`Date.now()` reading is passed in explicitly as a `now` argument.  The
pseudo-random `generateSessionId()` value is passed in as `newSessionId`,
and Node's `Buffer.from(_, 'base64').toString('ascii')` as an abstract
`decodeBase64` function.
-/

namespace NetsuiteData

/-- Milliseconds of allowed inactivity, `SESSION_CONFIG.INACTIVITY_TIMEOUT`
(30 minutes). -/
def INACTIVITY_TIMEOUT : Int := 30 * 60 * 1000

/-- Absolute session lifetime ceiling in milliseconds,
`SESSION_CONFIG.MAX_SESSION_DURATION` (8 hours). -/
def MAX_SESSION_DURATION : Int := 8 * 60 * 60 * 1000

/-- Name of the session cookie, `SESSION_CONFIG.SESSION_COOKIE_NAME`. -/
def SESSION_COOKIE_NAME : String := "netsuite-session"

/-- One record of the in-memory `sessionStore`. -/
structure SessionData where
  username : String
  loginTime : Int
  lastActivity : Int
  sessionId : String
deriving DecidableEq, Repr

/-- JavaScript `String.prototype.split` with a one-character separator,
written by structural recursion over the character list; the accumulator
holds the current chunk reversed. -/
def splitCharAux (c : Char) : List Char → List Char → List String
  | [], acc => [String.mk acc.reverse]
  | x :: xs, acc =>
      if x = c then String.mk acc.reverse :: splitCharAux c xs []
      else splitCharAux c xs (x :: acc)

/-- JavaScript `s.split(c)` for a single-character separator `c`. -/
def jsSplit (c : Char) (s : String) : List String := splitCharAux c s.data []

/-- JavaScript `s.startsWith(pre)`. -/
def jsStartsWith (s pre : String) : Bool := pre.data.isPrefixOf s.data

/-- The in-memory session store, `sessionStore : Map<string, SessionData>`,
modelled as an association list kept in insertion order. -/
abbrev Store := List (String × SessionData)

/-- `Map.prototype.get`: the value at key `k`, if any. -/
def Store.get : Store → String → Option SessionData
  | [], _ => none
  | p :: t, k => if p.1 == k then some p.2 else Store.get t k

/-- `Map.prototype.set`: replaces the value in place when the key exists,
otherwise appends a new entry. -/
def Store.set (s : Store) (k : String) (v : SessionData) : Store :=
  if s.any (fun p => p.1 == k) then
    s.map (fun p => if p.1 == k then (k, v) else p)
  else s ++ [(k, v)]

/-- `Map.prototype.delete`. -/
def Store.del (s : Store) (k : String) : Store :=
  s.filter (fun p => p.1 != k)

/-- `isSessionValid` from middleware.ts, with the two local variables
`timeSinceLogin` and `timeSinceActivity` inlined; `now` is the `Date.now()`
reading taken inside the function. -/
def isSessionValid (now : Int) (sessionData : SessionData) : Bool :=
  if now - sessionData.loginTime > MAX_SESSION_DURATION then false
  else if now - sessionData.lastActivity > INACTIVITY_TIMEOUT then false
  else true

/-- `cleanupExpiredSessions` from middleware.ts: deletes every store entry
whose record fails `isSessionValid`. -/
def cleanupExpiredSessions (now : Int) (s : Store) : Store :=
  s.filter (fun p => isSessionValid now p.2)

/-- The parts of a `NextRequest` the middleware reads. -/
structure MwRequest where
  method : String
  pathname : String
  sessionCookie : Option String
  authHeader : Option String
deriving DecidableEq, Repr

/-- The two environment variables the middleware consults. -/
structure Env where
  AUTH_USERNAME : Option String
  AUTH_PASSWORD : Option String
deriving DecidableEq, Repr

/-- Whether the middleware passes the request on (`NextResponse.next()`)
or rejects it with a 401 `NextResponse`. -/
inductive MwKind where
  | next
  | unauthorized
deriving DecidableEq, Repr

/-- The observable parts of the middleware's response: pass/reject, the 401
body text, the session cookie set on the response, and whether the session
cookie was deleted on the response. -/
structure MwResponse where
  kind : MwKind
  body : Option String
  setCookie : Option String
  deleteCookie : Bool
deriving DecidableEq, Repr

/-- The middleware's test for the session-management API routes whose
authentication it skips. -/
def isSkippedPath (p : String) : Bool :=
  jsStartsWith p "/api/auth" || p == "/api/session-check" ||
    p == "/api/extend-session"

/-- The middleware's test `authHeader && authHeader.startsWith('Basic ')`. -/
def hasBasicHeader (req : MwRequest) : Bool :=
  match req.authHeader with
  | some h => jsStartsWith h "Basic "
  | none => false

/-- The local `credentials` of the middleware:
`Buffer.from(authHeader.split(' ')[1], 'base64').toString('ascii')`. -/
def decodedCredentials (decodeBase64 : String → String) (req : MwRequest) :
    String :=
  decodeBase64 (((jsSplit ' ' (req.authHeader.getD "")).get? 1).getD "")

/-- The `username` of `[username, password] = credentials.split(':')`;
`none` plays the role of JavaScript `undefined`. -/
def credUsername (decodeBase64 : String → String) (req : MwRequest) :
    Option String :=
  (jsSplit ':' (decodedCredentials decodeBase64 req)).get? 0

/-- The `password` of `[username, password] = credentials.split(':')`. -/
def credPassword (decodeBase64 : String → String) (req : MwRequest) :
    Option String :=
  (jsSplit ':' (decodedCredentials decodeBase64 req)).get? 1

/-- `process.env.AUTH_USERNAME || 'admin'`. -/
def validUsername (env : Env) : String := env.AUTH_USERNAME.getD "admin"

/-- `process.env.AUTH_PASSWORD || 'secure123'`. -/
def validPassword (env : Env) : String := env.AUTH_PASSWORD.getD "secure123"

/-- The rejection test
`username !== validUsername || password !== validPassword`. -/
def credMismatch (env : Env) (decodeBase64 : String → String)
    (req : MwRequest) : Bool :=
  credUsername decodeBase64 req != some (validUsername env) ||
    credPassword decodeBase64 req != some (validPassword env)

/-- The basic-authentication tail of `middleware` (everything from the
`authorization` header check on), reached when no valid session cookie was
found; `store` is the session store at that point. -/
def handleBasicAuth (env : Env) (decodeBase64 : String → String) (now : Int)
    (newSessionId : String) (req : MwRequest) (store : Store) :
    MwResponse × Store :=
  if !hasBasicHeader req then
    ({ kind := .unauthorized, body := some "Authentication required",
       setCookie := none, deleteCookie := req.sessionCookie.isSome }, store)
  else if credMismatch env decodeBase64 req then
    ({ kind := .unauthorized, body := some "Invalid credentials",
       setCookie := none, deleteCookie := false }, store)
  else
    ({ kind := .next, body := none, setCookie := some newSessionId,
       deleteCookie := false },
     Store.set store newSessionId
       { username := (credUsername decodeBase64 req).getD "",
         loginTime := now, lastActivity := now, sessionId := newSessionId })

/-- `middleware` from middleware.ts: sweep expired sessions, pass the
session-management API routes through without authentication, otherwise try
the session cookie (touching a valid session, deleting an invalid one) and
fall back to HTTP basic authentication.  The source binds the swept store
once; here `cleanupExpiredSessions now store` is written out at each use. -/
def middleware (env : Env) (decodeBase64 : String → String) (now : Int)
    (newSessionId : String) (req : MwRequest) (store : Store) :
    MwResponse × Store :=
  if isSkippedPath req.pathname then
    ({ kind := .next, body := none, setCookie := none, deleteCookie := false },
     cleanupExpiredSessions now store)
  else
    match req.sessionCookie with
    | some cv =>
      match Store.get (cleanupExpiredSessions now store) cv with
      | some sessionData =>
        if isSessionValid now sessionData then
          ({ kind := .next, body := none, setCookie := some cv,
             deleteCookie := false },
           Store.set (cleanupExpiredSessions now store) cv
             { sessionData with lastActivity := now })
        else
          handleBasicAuth env decodeBase64 now newSessionId req
            (Store.del (cleanupExpiredSessions now store) cv)
      | none =>
        handleBasicAuth env decodeBase64 now newSessionId req
          (cleanupExpiredSessions now store)
    | none =>
      handleBasicAuth env decodeBase64 now newSessionId req
        (cleanupExpiredSessions now store)

/-- The observable parts of a route handler's JSON response. -/
structure ApiResponse where
  httpStatus : Nat
  resStatus : Option String
  message : Option String
  timestamp : Option String
deriving DecidableEq, Repr

/-- The `GET /api/session-check` handler body: it unconditionally returns
HTTP 200 with `status: 'valid'` and a timestamp (`ts` stands for
`new Date().toISOString()`). -/
def sessionCheckGET (ts : String) : ApiResponse :=
  { httpStatus := 200, resStatus := some "valid", message := none,
    timestamp := some ts }

/-- The `POST /api/extend-session` handler body: it unconditionally returns
HTTP 200 with `status: 'extended'`, a confirmation message and a timestamp. -/
def extendSessionPOST (ts : String) : ApiResponse :=
  { httpStatus := 200, resStatus := some "extended",
    message := some "Session extended successfully", timestamp := some ts }

/-- One end-to-end request against the app: the middleware runs first; when
it passes the request through, the route handler matching the path and
method runs; otherwise (and on non-API paths) the middleware's response
stands. -/
def serveApi (env : Env) (decodeBase64 : String → String) (now : Int)
    (newSessionId ts : String) (req : MwRequest) (store : Store) :
    (MwResponse ⊕ ApiResponse) × Store :=
  let r := middleware env decodeBase64 now newSessionId req store
  match r.1.kind with
  | .unauthorized => (Sum.inl r.1, r.2)
  | .next =>
    if req.pathname == "/api/session-check" && req.method == "GET" then
      (Sum.inr (sessionCheckGET ts), r.2)
    else if req.pathname == "/api/extend-session" && req.method == "POST" then
      (Sum.inr (extendSessionPOST ts), r.2)
    else (Sum.inl r.1, r.2)

/-- Warning lead time of the session monitor,
`SESSION_CONFIG.WARNING_TIME` in SessionManager.tsx (5 minutes). -/
def WARNING_TIME : Int := 5 * 60 * 1000

/-- Poll interval of the session monitor, `SESSION_CONFIG.CHECK_INTERVAL`
in SessionManager.tsx (1 minute). -/
def CHECK_INTERVAL : Int := 60 * 1000

/-- Outcome of a `fetch` call as the monitor sees it: a response with an
HTTP status, or a thrown network/transport error. -/
inductive FetchResult where
  | ok (status : Nat)
  | networkError
deriving DecidableEq, Repr

/-- `Response.ok` of the fetch API: status in 200..299. -/
def responseOk (status : Nat) : Bool := 200 ≤ status && status ≤ 299

/-- `checkSessionStatus` from SessionManager.tsx: a 401 yields false,
any other response yields `response.ok`, and a thrown fetch is caught and
yields false. -/
def checkSessionStatus : FetchResult → Bool
  | .ok status => if status == 401 then false else responseOk status
  | .networkError => false

/-- The effects of `handleSessionExpiry` in SessionManager.tsx. -/
structure ExpiryEffect where
  sessionExpired : Bool
  clientStateCleared : Bool
  reloadScheduled : Bool
deriving DecidableEq, Repr

/-- `handleSessionExpiry` from SessionManager.tsx: marks the session
expired, clears localStorage and sessionStorage, and schedules a full page
reload. -/
def handleSessionExpiry : ExpiryEffect :=
  { sessionExpired := true, clientStateCleared := true,
    reloadScheduled := true }

/-- The state transition a monitor callback decides on. -/
inductive MonitorStep where
  | expired
  | warningDismissed
  | warning (secondsRemaining : Int)
  | monitoring
deriving DecidableEq, Repr

/-- `extendSession` from SessionManager.tsx: a 2xx response dismisses the
warning, any other response or a thrown fetch routes to
`handleSessionExpiry`. -/
def extendSession : FetchResult → MonitorStep
  | .ok status => if responseOk status then .warningDismissed else .expired
  | .networkError => .expired

/-- The `checkSession` closure from SessionManager.tsx: asks the server for
liveness, then compares local inactivity against the timeout; the countdown
seconds are `Math.ceil(timeUntilExpiry / 1000)`. -/
def checkSession (now lastActivity : Int) (fetch : FetchResult) :
    MonitorStep :=
  let timeUntilExpiry := INACTIVITY_TIMEOUT - (now - lastActivity)
  if !(checkSessionStatus fetch) then .expired
  else if timeUntilExpiry ≤ WARNING_TIME && timeUntilExpiry > 0 then
    .warning ((timeUntilExpiry + 999) / 1000)
  else if timeUntilExpiry ≤ 0 then .expired
  else .monitoring

/-- Timestamp sanity of a store at clock reading `now`: every record was
created no later than its last activity, which is no later than `now`. -/
def StoreInv (now : Int) (s : Store) : Prop :=
  ∀ p ∈ s, p.2.loginTime ≤ p.2.lastActivity ∧ p.2.lastActivity ≤ now

instance (now : Int) (s : Store) : Decidable (StoreInv now s) := by
  unfold StoreInv
  infer_instance

/-! ## Lemmas about the session store -/

theorem Store.get_eq_none_of_not_mem (s : Store) (k : String) :
    k ∉ s.map Prod.fst → Store.get s k = none := by
  induction s with
  | nil => intro _; rfl
  | cons p t ih =>
    intro h
    simp only [List.map_cons, List.mem_cons, not_or] at h
    have hk : (p.1 == k) = false :=
      beq_eq_false_iff_ne.2 (Ne.symm h.1)
    simp [Store.get, hk, ih h.2]

theorem Store.mem_of_get_eq_some (s : Store) (k : String) (v : SessionData) :
    Store.get s k = some v → (k, v) ∈ s := by
  induction s with
  | nil => intro h; cases h
  | cons p t ih =>
    intro h
    by_cases hk : p.1 == k
    · have hpk : p.1 = k := eq_of_beq hk
      have hv : p.2 = v := by
        simpa [Store.get, hk] using h
      have hp : (k, v) = p := by rw [← hpk, ← hv]
      exact hp ▸ List.mem_cons_self p t
    · exact List.mem_cons_of_mem p (ih (by simpa [Store.get, hk] using h))

theorem Store.get_filter_eq_none (f : String × SessionData → Bool)
    (s : Store) (k : String) :
    Store.get s k = none → Store.get (s.filter f) k = none := by
  induction s with
  | nil => intro _; rfl
  | cons p t ih =>
    intro h
    by_cases hk : p.1 == k
    · simp [Store.get, hk] at h
    · have ht : Store.get t k = none := by simpa [Store.get, hk] using h
      by_cases hf : f p <;> simp [List.filter_cons, hf, Store.get, hk, ih ht]

theorem Store.get_cleanup_of_invalid (now : Int) (s : Store) (k : String)
    (v : SessionData) :
    (s.map Prod.fst).Nodup → Store.get s k = some v →
      isSessionValid now v = false →
      Store.get (cleanupExpiredSessions now s) k = none := by
  induction s with
  | nil => intro _ h _; cases h
  | cons p t ih =>
    intro hnd hget hval
    simp only [List.map_cons, List.nodup_cons] at hnd
    by_cases hk : p.1 == k
    · have hpk : p.1 = k := eq_of_beq hk
      have hv : p.2 = v := by simpa [Store.get, hk] using hget
      have htk : Store.get t k = none :=
        Store.get_eq_none_of_not_mem t k (hpk ▸ hnd.1)
      simp only [cleanupExpiredSessions, List.filter_cons, hv, hval]
      simpa [cleanupExpiredSessions] using
        Store.get_filter_eq_none (fun p => isSessionValid now p.2) t k htk
    · have ht : Store.get t k = some v := by
        simpa [Store.get, hk] using hget
      have := ih hnd.2 ht hval
      by_cases hf : isSessionValid now p.2 <;>
        simpa [cleanupExpiredSessions, List.filter_cons, hf, Store.get, hk]
          using this

theorem Store.get_cleanup_of_valid (now : Int) (s : Store) (k : String)
    (v : SessionData) :
    (s.map Prod.fst).Nodup → Store.get s k = some v →
      isSessionValid now v = true →
      Store.get (cleanupExpiredSessions now s) k = some v := by
  induction s with
  | nil => intro _ h _; cases h
  | cons p t ih =>
    intro hnd hget hval
    simp only [List.map_cons, List.nodup_cons] at hnd
    by_cases hk : p.1 == k
    · have hv : p.2 = v := by simpa [Store.get, hk] using hget
      simp [cleanupExpiredSessions, List.filter_cons, hv, hval, Store.get, hk]
    · have ht : Store.get t k = some v := by
        simpa [Store.get, hk] using hget
      have := ih hnd.2 ht hval
      by_cases hf : isSessionValid now p.2 <;>
        simpa [cleanupExpiredSessions, List.filter_cons, hf, Store.get, hk]
          using this

theorem Store.get_map_replace (s : Store) (k : String) (v : SessionData) :
    s.any (fun p => p.1 == k) = true →
      Store.get (s.map (fun p => if p.1 == k then (k, v) else p)) k
        = some v := by
  induction s with
  | nil => intro h; cases h
  | cons p t ih =>
    intro h
    by_cases hk : p.1 == k
    · simp [Store.get, hk]
    · have ht : t.any (fun p => p.1 == k) = true := by
        simpa [List.any_cons, hk] using h
      simpa [Store.get, hk] using ih ht

theorem Store.get_append_right (s : Store) (k : String) (v : SessionData) :
    s.any (fun p => p.1 == k) = false →
      Store.get (s ++ [(k, v)]) k = some v := by
  induction s with
  | nil => intro _; simp [Store.get]
  | cons p t ih =>
    intro h
    simp only [List.any_cons, Bool.or_eq_false_iff] at h
    simp [Store.get, h.1, ih h.2]

theorem Store.get_set_self (s : Store) (k : String) (v : SessionData) :
    Store.get (Store.set s k v) k = some v := by
  unfold Store.set
  by_cases hany : s.any (fun p => p.1 == k)
  · rw [if_pos hany]
    exact Store.get_map_replace s k v hany
  · rw [if_neg hany]
    exact Store.get_append_right s k v ((Bool.not_eq_true _) ▸ hany)

theorem Store.mem_set (s : Store) (k : String) (v : SessionData)
    (q : String × SessionData) :
    q ∈ Store.set s k v → q ∈ s ∨ q = (k, v) := by
  unfold Store.set
  by_cases hany : s.any (fun p => p.1 == k)
  · rw [if_pos hany]
    intro hq
    rcases List.mem_map.1 hq with ⟨r, hr, hrq⟩
    by_cases hk : r.1 == k
    · rw [if_pos hk] at hrq
      exact Or.inr hrq.symm
    · rw [if_neg hk] at hrq
      exact Or.inl (hrq ▸ hr)
  · rw [if_neg hany]
    intro hq
    rcases List.mem_append.1 hq with h | h
    · exact Or.inl h
    · exact Or.inr (by simpa using h)

theorem storeInv_filter (now : Int) (f : String × SessionData → Bool)
    (s : Store) (h : StoreInv now s) : StoreInv now (s.filter f) :=
  fun p hp => h p (List.mem_filter.1 hp).1

theorem storeInv_set (now : Int) (s : Store) (k : String) (v : SessionData)
    (h : StoreInv now s)
    (hv : v.loginTime ≤ v.lastActivity ∧ v.lastActivity ≤ now) :
    StoreInv now (Store.set s k v) := by
  intro q hq
  rcases Store.mem_set s k v q hq with hmem | hq2
  · exact h q hmem
  · rw [hq2]
    exact hv

theorem storeInv_hba (env : Env) (dec : String → String) (now : Int)
    (sid : String) (req : MwRequest) (s : Store) (h : StoreInv now s) :
    StoreInv now (handleBasicAuth env dec now sid req s).2 := by
  unfold handleBasicAuth
  by_cases hb : (!hasBasicHeader req) = true
  · rw [if_pos hb]
    exact h
  · rw [if_neg hb]
    by_cases hc : credMismatch env dec req = true
    · rw [if_pos hc]
      exact h
    · rw [if_neg hc]
      exact storeInv_set now s sid _ h ⟨le_refl now, le_refl now⟩

theorem hba_challenge (env : Env) (dec : String → String) (now : Int)
    (sid : String) (req : MwRequest) (s : Store)
    (h : (handleBasicAuth env dec now sid req s).1.body =
      some "Authentication required") :
    (handleBasicAuth env dec now sid req s).1.deleteCookie =
        req.sessionCookie.isSome ∧
      (handleBasicAuth env dec now sid req s).1.kind = .unauthorized := by
  unfold handleBasicAuth at h ⊢
  by_cases hb : (!hasBasicHeader req) = true
  · rw [if_pos hb]
    exact ⟨rfl, rfl⟩
  · rw [if_neg hb] at h
    by_cases hc : credMismatch env dec req = true
    · rw [if_pos hc] at h
      exact absurd (Option.some.inj h) (by decide)
    · rw [if_neg hc] at h
      simp at h

/-! ## Claim theorems -/

/-- Claim C3: a session record is judged valid by `isSessionValid` at time
`now` exactly when `now - loginTime ≤ MAX_SESSION_DURATION` and
`now - lastActivity ≤ INACTIVITY_TIMEOUT`. -/
theorem c3_validity_iff (now : Int) (sd : SessionData) :
    isSessionValid now sd = true ↔
      now - sd.loginTime ≤ MAX_SESSION_DURATION ∧
        now - sd.lastActivity ≤ INACTIVITY_TIMEOUT := by
  unfold isSessionValid
  split_ifs with h1 h2 <;> simp <;> omega

/-- Claim C5: with the session created at t = 0, every call made while the
clock is at or before the 8-hour ceiling and within the inactivity window
still finds the session valid (so touching every 600 s never trips
inactivity), while any validate/extend strictly after t = 28800 s finds it
invalid whatever the last-activity value: the max-duration ceiling dominates
continuous touching. -/
theorem c5_max_duration_dominates (now lastActivity : Int) (u sid : String) :
    (now - lastActivity ≤ INACTIVITY_TIMEOUT → now ≤ 28800000 →
      isSessionValid now { username := u, loginTime := 0,
                           lastActivity := lastActivity, sessionId := sid }
        = true) ∧
    (28800000 < now →
      isSessionValid now { username := u, loginTime := 0,
                           lastActivity := lastActivity, sessionId := sid }
        = false) := by
  constructor
  · intro h1 h2
    unfold INACTIVITY_TIMEOUT at h1
    unfold isSessionValid MAX_SESSION_DURATION INACTIVITY_TIMEOUT
    dsimp only
    split_ifs with g1 g2 <;> first | rfl | (exfalso; omega)
  · intro h
    unfold isSessionValid MAX_SESSION_DURATION INACTIVITY_TIMEOUT
    dsimp only
    split_ifs with g1 g2 <;> first | rfl | (exfalso; omega)

/-- Claim C5 witness: under the 600-second touch schedule the extend at
exactly t = 28800 s (last touch at t = 28200 s) still finds the session
valid, and the next call at t = 29400 s finds it invalid. -/
theorem c5_witness :
    isSessionValid 28800000 { username := "admin", loginTime := 0,
                              lastActivity := 28200000, sessionId := "tok" }
      = true ∧
    isSessionValid 29400000 { username := "admin", loginTime := 0,
                              lastActivity := 28800000, sessionId := "tok" }
      = false :=
  ⟨(c5_max_duration_dominates 28800000 28200000 "admin" "tok").1
      (by decide) (by decide),
   (c5_max_duration_dominates 29400000 28800000 "admin" "tok").2 (by decide)⟩

/-- Claim C8: sweeping expired sessions is idempotent at a fixed clock
reading: a second `cleanupExpiredSessions` right after a first one removes
nothing and returns the store unchanged. -/
theorem c8_sweep_idempotent (now : Int) (store : Store) :
    cleanupExpiredSessions now (cleanupExpiredSessions now store) =
      cleanupExpiredSessions now store := by
  unfold cleanupExpiredSessions
  induction store with
  | nil => rfl
  | cons p t ih =>
    by_cases h : isSessionValid now p.2 <;>
      simp [List.filter_cons, h, ih]

/-- Claim C9: the monitor fails closed: when the liveness or extend fetch
throws (network/transport failure) or returns a non-ok status, the liveness
path `checkSession` and the extension path `extendSession` both route to the
expired step, whose `handleSessionExpiry` effect clears client state and
schedules the forced reload. -/
theorem c9_fail_closed (now lastActivity : Int) (f : FetchResult)
    (h : f = .networkError ∨ ∃ s, f = .ok s ∧ responseOk s = false) :
    checkSession now lastActivity f = .expired ∧
      extendSession f = .expired ∧
      handleSessionExpiry.clientStateCleared = true ∧
      handleSessionExpiry.reloadScheduled = true := by
  have hstatus : checkSessionStatus f = false := by
    rcases h with rfl | ⟨s, rfl, hs⟩
    · rfl
    · unfold checkSessionStatus
      by_cases h401 : s == 401 <;> simp [h401, hs]
  have hext : extendSession f = .expired := by
    rcases h with rfl | ⟨s, rfl, hs⟩
    · rfl
    · simp [extendSession, hs]
  refine ⟨?_, hext, rfl, rfl⟩
  unfold checkSession
  simp [hstatus]

/-- Claim C9 witness: a server error (HTTP 500) on the fetch routes both
monitor calls to the expired flow. -/
theorem c9_witness :
    checkSession 0 0 (.ok 500) = .expired ∧
      extendSession (.ok 500) = .expired ∧
      handleSessionExpiry.clientStateCleared = true ∧
      handleSessionExpiry.reloadScheduled = true :=
  c9_fail_closed 0 0 (.ok 500) (Or.inr ⟨500, rfl, by decide⟩)

/-- Claim C1 (code-bug evidence): a GET to /api/session-check from a caller
with no session at all (no cookie, empty store) is passed through by the
middleware — the path is on its auth-skip list — and answered by the route
handler with HTTP 200, status "valid" and a timestamp, instead of the
unauthorized rejection the claim requires for an absent session. -/
theorem c1_session_check_unauthenticated_gets_ok :
    serveApi { AUTH_USERNAME := none, AUTH_PASSWORD := none } (fun s => s)
      1000 "fresh" "ts"
      { method := "GET", pathname := "/api/session-check",
        sessionCookie := none, authHeader := none } [] =
      (Sum.inr { httpStatus := 200, resStatus := some "valid",
                 message := none, timestamp := some "ts" }, []) := by
  decide

/-- Claim C2 (code-bug evidence): POST /api/extend-session is on the
middleware's auth-skip list, so (first conjunct) a call carrying the cookie
of a live session returns 200 "extended" while the stored `lastActivity`
stays at its old value 0 instead of being pushed to `now = 100000`, and
(second conjunct) a call whose session is already expired at
`now = 2000000` still returns 200 "extended" instead of unauthorized. -/
theorem c2_extend_session_never_touches :
    (serveApi { AUTH_USERNAME := none, AUTH_PASSWORD := none } (fun s => s)
      100000 "fresh" "ts"
      { method := "POST", pathname := "/api/extend-session",
        sessionCookie := some "tok", authHeader := none }
      [("tok", { username := "admin", loginTime := 0, lastActivity := 0,
                 sessionId := "tok" })] =
      (Sum.inr (extendSessionPOST "ts"),
       [("tok", { username := "admin", loginTime := 0, lastActivity := 0,
                  sessionId := "tok" })])) ∧
    (serveApi { AUTH_USERNAME := none, AUTH_PASSWORD := none } (fun s => s)
      2000000 "fresh" "ts"
      { method := "POST", pathname := "/api/extend-session",
        sessionCookie := some "tok", authHeader := none }
      [("tok", { username := "admin", loginTime := 0, lastActivity := 0,
                 sessionId := "tok" })] =
      (Sum.inr (extendSessionPOST "ts"), [])) := by
  constructor <;> decide

/-- Claim C6 counterexample: a request carrying a previously-set (now stale)
session cookie together with a Basic header holding wrong credentials is
rejected with 401 "Invalid credentials", yet `deleteCookie` is false — the
stale session cookie is not cleared on this unauthorized rejection. -/
theorem c6_counterexample :
    (middleware { AUTH_USERNAME := none, AUTH_PASSWORD := none }
        (fun _ => "wrong:creds") 0 "fresh"
        { method := "GET", pathname := "/", sessionCookie := some "tok",
          authHeader := some "Basic eA" } []).1 =
      { kind := .unauthorized, body := some "Invalid credentials",
        setCookie := none, deleteCookie := false } := by
  decide

/-- Claim C6 amended: on the authentication-challenge rejection (the 401
whose body is "Authentication required", issued when no valid session
exists and no Basic credential header is present), the response clears the
session cookie exactly when the request carried one; the "Invalid
credentials" rejection (see the counterexample) leaves the cookie in
place. -/
theorem c6_amended_challenge_clears (env : Env) (dec : String → String)
    (now : Int) (sid : String) (req : MwRequest) (store : Store)
    (h : (middleware env dec now sid req store).1.body =
      some "Authentication required") :
    (middleware env dec now sid req store).1.deleteCookie =
        req.sessionCookie.isSome ∧
      (middleware env dec now sid req store).1.kind = .unauthorized := by
  unfold middleware at h ⊢
  by_cases hskip : isSkippedPath req.pathname = true
  · rw [if_pos hskip] at h
    simp at h
  · rw [if_neg hskip] at h ⊢
    cases hsc : req.sessionCookie with
    | none =>
      rw [hsc] at h
      dsimp only at h
      have hr := hba_challenge env dec now sid req _ h
      rwa [hsc] at hr
    | some cv =>
      rw [hsc] at h
      dsimp only at h
      dsimp only
      cases hget : Store.get (cleanupExpiredSessions now store) cv with
      | none =>
        rw [hget] at h
        dsimp only at h
        have hr := hba_challenge env dec now sid req _ h
        rwa [hsc] at hr
      | some sd =>
        rw [hget] at h
        dsimp only at h
        dsimp only
        by_cases hval : isSessionValid now sd = true
        · rw [if_pos hval] at h
          simp at h
        · rw [if_neg hval] at h
          rw [if_neg hval]
          have hr := hba_challenge env dec now sid req _ h
          rwa [hsc] at hr

/-- Claim C6 amended witness: a request with a stale cookie and no Basic
header gets the challenge rejection with the cookie cleared. -/
theorem c6_amended_witness :
    (middleware { AUTH_USERNAME := none, AUTH_PASSWORD := none }
        (fun s => s) 0 "fresh"
        { method := "GET", pathname := "/", sessionCookie := some "tok",
          authHeader := none } []).1.deleteCookie =
      (some "tok" : Option String).isSome ∧
      (middleware { AUTH_USERNAME := none, AUTH_PASSWORD := none }
        (fun s => s) 0 "fresh"
        { method := "GET", pathname := "/", sessionCookie := some "tok",
          authHeader := none } []).1.kind = .unauthorized :=
  c6_amended_challenge_clears { AUTH_USERNAME := none, AUTH_PASSWORD := none }
    (fun s => s) 0 "fresh"
    { method := "GET", pathname := "/", sessionCookie := some "tok",
      authHeader := none } [] (by decide)

/-- Claim C4: validate semantics of the middleware for a request presenting
a session cookie `c` and no credential header on a protected path, over a
store with distinct keys: a token absent from the store is rejected with
the cookie cleared and stays absent; a present-but-expired token is evicted
and the request rejected; a valid token is touched
(`lastActivity := now`) and the refreshed record is stored while the
request passes through. -/
theorem c4_validate_semantics (env : Env) (dec : String → String) (now : Int)
    (sid : String) (req : MwRequest) (store : Store) (c : String)
    (hpath : isSkippedPath req.pathname = false)
    (hcookie : req.sessionCookie = some c)
    (hauth : req.authHeader = none)
    (hnd : (store.map Prod.fst).Nodup) :
    (Store.get store c = none →
        (middleware env dec now sid req store).1.kind = .unauthorized ∧
          (middleware env dec now sid req store).1.deleteCookie = true ∧
          Store.get (middleware env dec now sid req store).2 c = none) ∧
    (∀ sd, Store.get store c = some sd → isSessionValid now sd = false →
        (middleware env dec now sid req store).1.kind = .unauthorized ∧
          Store.get (middleware env dec now sid req store).2 c = none) ∧
    (∀ sd, Store.get store c = some sd → isSessionValid now sd = true →
        (middleware env dec now sid req store).1.kind = .next ∧
          Store.get (middleware env dec now sid req store).2 c =
            some { sd with lastActivity := now }) := by
  have hbasic : hasBasicHeader req = false := by
    unfold hasBasicHeader
    rw [hauth]
  have hchal : ∀ s : Store, handleBasicAuth env dec now sid req s =
      ({ kind := .unauthorized, body := some "Authentication required",
         setCookie := none, deleteCookie := req.sessionCookie.isSome }, s) := by
    intro s
    unfold handleBasicAuth
    rw [hbasic]
    rfl
  have hns : ¬(isSkippedPath req.pathname = true) := by simp [hpath]
  unfold middleware
  rw [if_neg hns, hcookie]
  refine ⟨?_, ?_, ?_⟩
  · intro hnone
    have h1 : Store.get (cleanupExpiredSessions now store) c = none :=
      Store.get_filter_eq_none _ store c hnone
    dsimp only
    rw [h1]
    dsimp only
    rw [hchal, hcookie]
    exact ⟨rfl, rfl, h1⟩
  · intro sd hget hval
    have h1 : Store.get (cleanupExpiredSessions now store) c = none :=
      Store.get_cleanup_of_invalid now store c sd hnd hget hval
    dsimp only
    rw [h1]
    dsimp only
    rw [hchal]
    exact ⟨rfl, h1⟩
  · intro sd hget hval
    have h1 : Store.get (cleanupExpiredSessions now store) c = some sd :=
      Store.get_cleanup_of_valid now store c sd hnd hget hval
    dsimp only
    rw [h1]
    dsimp only
    rw [if_pos hval]
    exact ⟨rfl, Store.get_set_self _ _ _⟩

/-- Claim C4 witness (spec Scenario B): after authenticating at t = 0 and
making no further calls, a validate at t = 1801 s (1800 s inactivity
timeout) is rejected and the token is gone from the store. -/
theorem c4_witness :
    (middleware { AUTH_USERNAME := none, AUTH_PASSWORD := none }
        (fun s => s) 1801000 "fresh"
        { method := "GET", pathname := "/", sessionCookie := some "tok",
          authHeader := none }
        [("tok", { username := "admin", loginTime := 0, lastActivity := 0,
                   sessionId := "tok" })]).1.kind = .unauthorized ∧
      Store.get (middleware { AUTH_USERNAME := none, AUTH_PASSWORD := none }
        (fun s => s) 1801000 "fresh"
        { method := "GET", pathname := "/", sessionCookie := some "tok",
          authHeader := none }
        [("tok", { username := "admin", loginTime := 0, lastActivity := 0,
                   sessionId := "tok" })]).2 "tok" = none :=
  (c4_validate_semantics { AUTH_USERNAME := none, AUTH_PASSWORD := none }
      (fun s => s) 1801000 "fresh"
      { method := "GET", pathname := "/", sessionCookie := some "tok",
        authHeader := none }
      [("tok", { username := "admin", loginTime := 0, lastActivity := 0,
                 sessionId := "tok" })] "tok"
      (by decide) rfl rfl (by decide)).2.1
    { username := "admin", loginTime := 0, lastActivity := 0,
      sessionId := "tok" } (by decide) (by decide)

/-- Claim C7: preservation of the timestamp invariant: if every stored
record satisfies `loginTime ≤ lastActivity ≤ now`, then after the
middleware handles any request at time `now` (sweep, touch on validate,
eviction, or session creation) every stored record still does — in
particular `lastActivityAt ≥ createdAt` holds at every observable point. -/
theorem c7_invariant_preserved (env : Env) (dec : String → String)
    (now : Int) (sid : String) (req : MwRequest) (store : Store)
    (h : StoreInv now store) :
    StoreInv now (middleware env dec now sid req store).2 := by
  have hclean : StoreInv now (cleanupExpiredSessions now store) :=
    storeInv_filter now _ store h
  unfold middleware
  by_cases hskip : isSkippedPath req.pathname = true
  · rw [if_pos hskip]
    exact hclean
  · rw [if_neg hskip]
    cases hsc : req.sessionCookie with
    | none => exact storeInv_hba env dec now sid req _ hclean
    | some cv =>
      dsimp only
      cases hget : Store.get (cleanupExpiredSessions now store) cv with
      | none => exact storeInv_hba env dec now sid req _ hclean
      | some sd =>
        dsimp only
        by_cases hval : isSessionValid now sd = true
        · rw [if_pos hval]
          apply storeInv_set now _ cv _ hclean
          obtain ⟨h1, h2⟩ :=
            hclean (cv, sd) (Store.mem_of_get_eq_some _ cv sd hget)
          exact ⟨le_trans h1 h2, le_refl now⟩
        · rw [if_neg hval]
          exact storeInv_hba env dec now sid req _
            (storeInv_filter now _ _ hclean)

/-- Claim C7 witness: a store satisfying the invariant still satisfies it
after a touching validate. -/
theorem c7_witness :
    StoreInv 100000 (middleware { AUTH_USERNAME := none, AUTH_PASSWORD := none }
      (fun s => s) 100000 "fresh"
      { method := "GET", pathname := "/", sessionCookie := some "tok",
        authHeader := none }
      [("tok", { username := "admin", loginTime := 0, lastActivity := 50000,
                 sessionId := "tok" })]).2 :=
  c7_invariant_preserved { AUTH_USERNAME := none, AUTH_PASSWORD := none }
    (fun s => s) 100000 "fresh"
    { method := "GET", pathname := "/", sessionCookie := some "tok",
      authHeader := none }
    [("tok", { username := "admin", loginTime := 0, lastActivity := 50000,
               sessionId := "tok" })] (by decide)

/-- Claim C10: with both AUTH_USERNAME and AUTH_PASSWORD unset, for a
request on a protected path with no session cookie and a Basic header, the
middleware creates a session (passing the request through, issuing the new
session cookie, and storing a record with both timestamps at `now`) exactly
when the decoded credentials are the fallback pair admin / secure123; for
every other decoded pair it rejects with 401 "Invalid credentials". -/
theorem c10_fallback_credentials (dec : String → String) (now : Int)
    (sid : String) (req : MwRequest) (store : Store)
    (hpath : isSkippedPath req.pathname = false)
    (hcookie : req.sessionCookie = none)
    (hbasic : hasBasicHeader req = true) :
    ((credUsername dec req = some "admin" ∧
        credPassword dec req = some "secure123") →
      (middleware { AUTH_USERNAME := none, AUTH_PASSWORD := none } dec now
          sid req store).1.kind = .next ∧
        (middleware { AUTH_USERNAME := none, AUTH_PASSWORD := none } dec now
          sid req store).1.setCookie = some sid ∧
        Store.get (middleware { AUTH_USERNAME := none, AUTH_PASSWORD := none }
          dec now sid req store).2 sid =
          some { username := "admin", loginTime := now, lastActivity := now,
                 sessionId := sid }) ∧
    (¬(credUsername dec req = some "admin" ∧
        credPassword dec req = some "secure123") →
      (middleware { AUTH_USERNAME := none, AUTH_PASSWORD := none } dec now
          sid req store).1 =
        { kind := .unauthorized, body := some "Invalid credentials",
          setCookie := none, deleteCookie := false }) := by
  have hmis : credMismatch { AUTH_USERNAME := none, AUTH_PASSWORD := none }
      dec req = false ↔
      (credUsername dec req = some "admin" ∧
        credPassword dec req = some "secure123") := by
    unfold credMismatch validUsername validPassword
    simp [Bool.or_eq_false_iff]
  have hns : ¬(isSkippedPath req.pathname = true) := by simp [hpath]
  unfold middleware
  rw [if_neg hns, hcookie]
  dsimp only
  unfold handleBasicAuth
  rw [hbasic]
  rw [if_neg (by decide : ¬((!true) = true))]
  refine ⟨fun hcred => ?_, fun hncred => ?_⟩
  · have hcm : credMismatch { AUTH_USERNAME := none, AUTH_PASSWORD := none }
        dec req = false := hmis.2 hcred
    rw [hcm, if_neg (by decide : ¬(false = true))]
    rw [hcred.1]
    exact ⟨rfl, rfl, Store.get_set_self _ _ _⟩
  · have hcm : credMismatch { AUTH_USERNAME := none, AUTH_PASSWORD := none }
        dec req = true := by
      rcases Bool.eq_false_or_eq_true
        (credMismatch { AUTH_USERNAME := none, AUTH_PASSWORD := none }
          dec req) with hb | hb
      · exact hb
      · exact absurd (hmis.1 hb) hncred
    rw [hcm, if_pos rfl]

/-- Claim C10 witness: a header decoding to admin:secure123 creates the
session. -/
theorem c10_witness :
    (middleware { AUTH_USERNAME := none, AUTH_PASSWORD := none }
        (fun _ => "admin:secure123") 7 "sid"
        { method := "GET", pathname := "/", sessionCookie := none,
          authHeader := some "Basic x" } []).1.kind = .next ∧
      (middleware { AUTH_USERNAME := none, AUTH_PASSWORD := none }
        (fun _ => "admin:secure123") 7 "sid"
        { method := "GET", pathname := "/", sessionCookie := none,
          authHeader := some "Basic x" } []).1.setCookie = some "sid" ∧
      Store.get (middleware { AUTH_USERNAME := none, AUTH_PASSWORD := none }
        (fun _ => "admin:secure123") 7 "sid"
        { method := "GET", pathname := "/", sessionCookie := none,
          authHeader := some "Basic x" } []).2 "sid" =
        some { username := "admin", loginTime := 7, lastActivity := 7,
               sessionId := "sid" } :=
  (c10_fallback_credentials (fun _ => "admin:secure123") 7 "sid"
      { method := "GET", pathname := "/", sessionCookie := none,
        authHeader := some "Basic x" } [] (by decide) rfl (by decide)).1
    ⟨by decide, by decide⟩

end NetsuiteData
